import Mathlib

/-!
# VPS-BE capability-scoped file access service: shallow embedding

This development embeds the token service (`signed-url.service`, in the
source as `generateSignedUrl`, `validateToken`, `validateFileAccess`), the
blob store layer (`gridfs.service.ts`: `getFileInfo`, `deleteFile`,
`uploadFile`), the streaming gateway handlers (`streamFileHandler`,
`downloadFileHandler`, `deleteFileHandler` in `file.controller`) and the
generated-image storage path (`storeBase64Image`) as pure Lean functions,
and proves the spec's claims about them.

Modelling conventions:
* JWTs are modelled structurally: a token is either unparseable
  (`Token.garbage`) or a claim set plus a signature byte list
  (`Token.signed`).  The HMAC is an arbitrary function
  `hmac : String → JwtClaims → List Nat` (secret → signing input →
  signature bytes); the code only ever compares a token's signature
  against the recomputed HMAC for equality, so every theorem is proved
  for all such functions.
* `jsonwebtoken`'s `verify` checks the signature before the `exp` claim
  and reports `TokenExpiredError` only for a correctly signed token;
  a bad signature raises `JsonWebTokenError` (invalid signature), which
  the code maps to the message "Invalid token format".
* Durations (`'5m'`, `'24h'`, `JWT_EXPIRY`) are modelled in seconds.
* HTTP requests/responses are modelled by their observable data: the
  extracted query token, the path parameter, the status code, the JSON
  `error`/`message` fields, and the response headers the handlers set.
  The signed URL string wrapper `baseUrl ++ "/api/files/" ++ id ++
  "?token=" ++ token` around the minted token is elided: `generateSignedUrl`
  returns the minted token, the only part any claim observes.
-/

namespace VPS

/-- The `SignedUrlPayload` interface of `signed-url.service`: the claims the
server puts into a token (`fileId`, optional `userId`, `permissions`,
opaque `metadata`). -/
structure SignedUrlPayload where
  fileId : String
  userId : Option String
  permissions : List String
  metadata : Option String
deriving DecidableEq, Repr

/-- The full signed claim set: the payload plus the `exp` claim added by
`jwt.sign` (absolute expiry, seconds since epoch). -/
structure JwtClaims where
  payload : SignedUrlPayload
  exp : Nat
deriving DecidableEq, Repr

/-- A JWT as presented to `validateToken`: either an unparseable string or
a claim set together with its signature bytes. -/
inductive Token where
  | garbage : Token
  | signed : JwtClaims → List Nat → Token
deriving DecidableEq, Repr

/-- The error classes `jsonwebtoken.verify` can raise: `TokenExpiredError`,
malformed-token `JsonWebTokenError`, invalid-signature `JsonWebTokenError`. -/
inductive JwtError where
  | expired : JwtError
  | malformed : JwtError
  | signatureMismatch : JwtError
deriving DecidableEq, Repr

/-- Model of `jwt.verify(token, secret)`: recompute the HMAC over the signing input
and compare; on a matching signature check the `exp` claim (expired iff
`exp ≤ now`); a non-matching signature raises before any claim check. -/
def jwtVerify (hmac : String → JwtClaims → List Nat) (secret : String)
    (now : Nat) : Token → Except JwtError JwtClaims
  | .garbage => .error .malformed
  | .signed c s =>
    if s = hmac secret c then
      if c.exp ≤ now then .error .expired else .ok c
    else .error .signatureMismatch

/-- Model of `jwt.sign(payload, secret, expiresIn)`: attach `exp := now + expiresIn`
and sign the resulting claim set. -/
def jwtSign (hmac : String → JwtClaims → List Nat) (secret : String)
    (now : Nat) (p : SignedUrlPayload) (expiresIn : Nat) : Token :=
  .signed ⟨p, now + expiresIn⟩ (hmac secret ⟨p, now + expiresIn⟩)

/-- Environment configuration read at module load:
`process.env.JWT_SECRET` and `process.env.JWT_EXPIRY` (the latter in
seconds), each possibly unset. -/
structure Env where
  jwtSecret : Option String
  jwtExpiry : Option Nat
deriving DecidableEq, Repr

/-- The hardcoded fallback secret in
`const JWT_SECRET = process.env.JWT_SECRET || '...'`. -/
def defaultSecret : String := "your-super-secret-jwt-key-change-this-in-production"

/-- The module constant `JWT_SECRET = process.env.JWT_SECRET || defaultSecret`. -/
def JWT_SECRET (env : Env) : String := env.jwtSecret.getD defaultSecret

/-- The module constant `JWT_EXPIRY = process.env.JWT_EXPIRY || '5m'` (300 seconds). -/
def JWT_EXPIRY (env : Env) : Nat := env.jwtExpiry.getD 300

/-- The `options` bag of `generateSignedUrl`. -/
structure SignOptions where
  userId : Option String
  permissions : Option (List String)
  metadata : Option String
  expiry : Option Nat
deriving DecidableEq, Repr

/-- Model of `generateSignedUrl(fileId, options)`: build the payload (permissions
default to `['read']` when not supplied — in JS `[] || x` keeps `[]`, so
an explicitly empty array is kept, matching `Option.getD`), sign with
`JWT_SECRET` and `expiresIn := options?.expiry || JWT_EXPIRY`, and return
the minted token (the URL wrapper around it is elided, see the header). -/
def generateSignedUrl (hmac : String → JwtClaims → List Nat) (env : Env)
    (now : Nat) (fileId : String) (options : Option SignOptions) : Token :=
  let payload : SignedUrlPayload :=
    { fileId := fileId
      userId := options.bind (·.userId)
      permissions := (options.bind (·.permissions)).getD ["read"]
      metadata := options.bind (·.metadata) }
  jwtSign hmac (JWT_SECRET env) now payload
    ((options.bind (·.expiry)).getD (JWT_EXPIRY env))

/-- The `TokenValidationResult` interface of `signed-url.service`. -/
structure TokenValidationResult where
  valid : Bool
  payload : Option JwtClaims
  error : Option String
deriving DecidableEq, Repr

/-- The error-message mapping in `validateToken`'s catch block:
`TokenExpiredError → 'Token has expired'`, any other `JsonWebTokenError`
(malformed or invalid signature) → `'Invalid token format'`. -/
def errorMessageFor : JwtError → String
  | .expired => "Token has expired"
  | .malformed => "Invalid token format"
  | .signatureMismatch => "Invalid token format"

/-- Model of `validateToken(token)`: wrap `jwt.verify`, returning
`{valid: true, payload}` or `{valid: false, error}`. -/
def validateToken (hmac : String → JwtClaims → List Nat) (secret : String)
    (now : Nat) (t : Token) : TokenValidationResult :=
  match jwtVerify hmac secret now t with
  | .ok c => { valid := true, payload := some c, error := none }
  | .error e => { valid := false, payload := none, error := some (errorMessageFor e) }

/-- Outcome of the `validateFileAccess` middleware: a JSON rejection with a
status code and `error`/`message` fields, or `next()` with
`req.fileAccess := validation.payload`. -/
inductive AccessOutcome where
  | reject : Nat → String → String → AccessOutcome
  | allow : Option JwtClaims → AccessOutcome
deriving DecidableEq, Repr

/-- Rendering of an optional string in a JS template literal
(`undefined` prints as "undefined"). -/
def showOpt : Option String → String
  | none => "undefined"
  | some s => s

/-- Model of `validateFileAccess(req, res, next)`: 401 when the query token is
missing or not a string; 401 with the specific `validateToken` error when
verification fails; 400 when no `id`/`fileId` path parameter is present;
403 with both ids in the message when the token's `fileId` differs from
the requested id; otherwise `next()` with the payload attached. -/
def validateFileAccess (hmac : String → JwtClaims → List Nat) (secret : String)
    (now : Nat) (queryToken : Option Token) (paramsId : Option String) :
    AccessOutcome :=
  match queryToken with
  | none =>
    .reject 401 "Access token required"
      "Please provide a valid token in the query parameters"
  | some token =>
    let validation := validateToken hmac secret now token
    if !validation.valid then
      .reject 401 "Invalid or expired token" (showOpt validation.error)
    else
      match paramsId with
      | none =>
        .reject 400 "Missing file ID" "File ID not found in request parameters"
      | some requestedFileId =>
        if validation.payload.map (fun c => c.payload.fileId) ≠ some requestedFileId then
          .reject 403 "Token file mismatch"
            ("Token is not valid for the requested file. Token: "
              ++ showOpt (validation.payload.map (fun c => c.payload.fileId))
              ++ ", Requested: " ++ requestedFileId)
        else
          .allow validation.payload

/-! ## Blob store (`gridfs.service.ts`) -/

/-- A GridFS files-collection document as the service reads it back
(`filename`, `length`, `contentType`, `metadata`, `uploadDate`); the `_id`
is the key under which it is stored. -/
structure StoredFile where
  filename : String
  length : Nat
  contentType : Option String
  metadata : Option String
  uploadDate : Nat
deriving DecidableEq, Repr

/-- The GridFS bucket state: an association list from id strings to file
documents, in insertion order. -/
abbrev Store := List (String × StoredFile)

/-- Validity test for ids: `new ObjectId(fileId)` succeeds exactly on well-formed hex id strings
and throws a `BSONError` otherwise; modelled as 24 hex characters. -/
def isValidObjectId (s : String) : Bool :=
  s.length = 24 && s.toList.all (fun c => c.isDigit
    || ('a' ≤ c && c ≤ 'f') || ('A' ≤ c && c ≤ 'F'))

/-- Find the file document stored under an id (`bucket.find({_id}).toArray`
followed by `files[0] || null`). -/
def findFile : Store → String → Option StoredFile
  | [], _ => none
  | e :: rest, fid => if e.1 = fid then some e.2 else findFile rest fid

/-- Remove the document stored under an id (`bucket.delete(objectId)`'s
effect on the bucket). -/
def eraseFile : Store → String → Store
  | [], _ => []
  | e :: rest, fid =>
    if e.1 = fid then eraseFile rest fid else e :: eraseFile rest fid

/-- Failure of a store call that surfaces as a thrown error. -/
inductive StoreError where
  | invalidObjectId : StoreError
deriving DecidableEq, Repr

/-- Model of `getFileInfo(fileId)`: construct the `ObjectId` (throwing on a
malformed id — not caught inside this function), query the files
collection, and return `files[0] || null`. -/
def getFileInfo (store : Store) (fileId : String) :
    Except StoreError (Option StoredFile) :=
  if isValidObjectId fileId then .ok (findFile store fileId)
  else .error .invalidObjectId

/-- Model of `deleteFile(fileId)`: everything runs inside a `try`: a malformed id
(the `ObjectId` constructor throws), an infrastructure error from the
bucket call (`infraFailure`), and GridFS's "file not found" error for an
absent id all land in the `catch` and return `false`; a successful bucket
delete returns `true`.  Returns the flag and the resulting bucket state. -/
def deleteFile (infraFailure : Bool) (store : Store) (fileId : String) :
    Bool × Store :=
  if !isValidObjectId fileId then (false, store)
  else if infraFailure then (false, store)
  else if (findFile store fileId).isSome then (true, eraseFile store fileId)
  else (false, store)

/-- Model of `uploadFile(stream, filename, options)`: GridFS assigns a fresh id and
the document becomes visible when the stream finishes; `size` is the byte
length of the consumed stream. -/
def uploadFile (store : Store) (freshId : String) (now : Nat)
    (data : List Nat) (filename : String) (contentType : Option String)
    (metadata : Option String) : Store × String :=
  (store ++ [(freshId,
    { filename := filename
      length := data.length
      contentType := contentType
      metadata := metadata
      uploadDate := now })], freshId)

/-! ## Gateway handlers (`file.controller`, streaming controller) -/

/-- A JSON response: status code plus the `error` field (none for the
success shape). -/
structure JsonResponse where
  status : Nat
  error : Option String
  message : String
deriving DecidableEq, Repr

/-- Model of `deleteFileHandler`: the whole body runs inside a `try`.
It first does `await connectToDatabase()`, which throws when
`MONGODB_URI` is unset or the first connection attempt fails
(`database.ts`); such a throw lands in the handler's catch-all, which
responds 500 with `error: 'Failed to delete file'` and the thrown
error's message (`connectFailure` carries that message, `none` meaning
the connection was established).  Otherwise it calls `deleteFile` —
which never throws — and responds 404 on `false`, 200 on `true`. -/
def deleteFileHandler (connectFailure : Option String) (infraFailure : Bool)
    (store : Store) (fileId : String) : JsonResponse × Store :=
  match connectFailure with
  | some errMsg =>
    ({ status := 500, error := some "Failed to delete file", message := errMsg }, store)
  | none =>
    let r := deleteFile infraFailure store fileId
    if r.1 then
      ({ status := 200, error := none, message := "File deleted successfully" }, r.2)
    else
      ({ status := 404, error := some "File not found or deletion failed"
         message := "The requested file does not exist or could not be deleted" }, r.2)

/-- The response headers the streaming handlers set before piping. -/
structure StreamHeaders where
  contentType : String
  contentLength : Nat
  contentDisposition : String
  cacheControl : String
  etag : String
deriving DecidableEq, Repr

/-- Observable outcome of a streaming handler: headers set and body piped,
or a JSON error response before any bytes were sent. -/
inductive StreamResponse where
  | streamed : StreamHeaders → StreamResponse
  | jsonError : Nat → String → StreamResponse
deriving DecidableEq, Repr

/-- Model of `streamFileHandler`: look up the file info (a thrown error is caught →
500 "Failed to stream file"); 404 when the id resolves to no document;
otherwise set `Content-Type` (stored type or octet-stream),
`Content-Length`, inline `Content-Disposition`, the private 5-minute
`Cache-Control`, and an `ETag` quoting the document id, then pipe. -/
def streamFileHandler (store : Store) (fileId : String) : StreamResponse :=
  match getFileInfo store fileId with
  | .error _ => .jsonError 500 "Failed to stream file"
  | .ok none => .jsonError 404 "File not found"
  | .ok (some info) =>
    .streamed
      { contentType := info.contentType.getD "application/octet-stream"
        contentLength := info.length
        contentDisposition := "inline; filename=\"" ++ info.filename ++ "\""
        cacheControl := "private, max-age=300"
        etag := "\"" ++ fileId ++ "\"" }

/-- Model of `downloadFileHandler`: same lookup and error handling, but the headers
force a download: `Content-Type` is always `application/octet-stream` and
`Content-Disposition` is `attachment`. -/
def downloadFileHandler (store : Store) (fileId : String) : StreamResponse :=
  match getFileInfo store fileId with
  | .error _ => .jsonError 500 "Failed to download file"
  | .ok none => .jsonError 404 "File not found"
  | .ok (some info) =>
    .streamed
      { contentType := "application/octet-stream"
        contentLength := info.length
        contentDisposition := "attachment; filename=\"" ++ info.filename ++ "\""
        cacheControl := "private, max-age=300"
        etag := "\"" ++ fileId ++ "\"" }

/-! ## Generated-image storage (`storeBase64Image`) -/

/-- Model of `getExtensionFromMimeType`. -/
def getExtensionFromMimeType (mimeType : String) : String :=
  if mimeType = "image/png" then "png"
  else if mimeType = "image/jpeg" then "jpg"
  else if mimeType = "image/jpg" then "jpg"
  else if mimeType = "image/webp" then "webp"
  else if mimeType = "image/gif" then "gif"
  else if mimeType = "image/svg+xml" then "svg"
  else "jpg"

/-- The `options` bag of `storeBase64Image`. -/
structure StoreImageOptions where
  filename : Option String
  userId : Option String
  metadata : Option String
  expiry : Option Nat
deriving DecidableEq, Repr

/-- The `ImageStorageResult` interface; `token` is the capability token
embedded in the returned signed URL. -/
structure ImageStorageResult where
  fileId : String
  filename : String
  size : Nat
  contentType : String
  token : Token
deriving DecidableEq, Repr

/-- Model of `storeBase64Image(base64Data, mimeType, options)`: decode the bytes,
upload them under a generated filename with `source: 'generated'`
metadata (the metadata bag is opaque here), then mint a signed URL with
`expiry: options?.expiry || '24h'` (86400 seconds).  The aux metadata the
mint call echoes (the upload result) is opaque and modelled by the
caller's metadata option. -/
def storeBase64Image (hmac : String → JwtClaims → List Nat) (env : Env)
    (now : Nat) (store : Store) (freshId : String) (data : List Nat)
    (mimeType : String) (options : Option StoreImageOptions) :
    Store × ImageStorageResult :=
  let filename := (options.bind (·.filename)).getD
    ("generated-image-" ++ toString now ++ "." ++ getExtensionFromMimeType mimeType)
  let up := uploadFile store freshId now data filename (some mimeType)
    (options.bind (·.metadata))
  let token := generateSignedUrl hmac env now up.2 (some
    { userId := options.bind (·.userId)
      permissions := none
      metadata := options.bind (·.metadata)
      expiry := some ((options.bind (·.expiry)).getD 86400) })
  (up.1,
    { fileId := up.2
      filename := filename
      size := data.length
      contentType := mimeType
      token := token })

/-- The expiry claim of a token, when it is structurally a signed JWT. -/
def tokenExp : Token → Option Nat
  | .garbage => none
  | .signed c _ => some c.exp

/-- The payload claims of a token, when it is structurally a signed JWT. -/
def tokenPayload : Token → Option SignedUrlPayload
  | .garbage => none
  | .signed c _ => some c.payload

/-! ## Theorems -/

/-- A trivial HMAC used to instantiate universally quantified theorems on
concrete inputs. -/
def constSig : String → JwtClaims → List Nat := fun _ _ => [0]

/-- A concrete well-signed claim set used in witnesses. -/
def exPayload : SignedUrlPayload :=
  { fileId := "a", userId := none, permissions := ["read"], metadata := none }

/-- C1: a token whose signature and expiry are valid but whose embedded
`fileId` differs from the requested path id is rejected by
`validateFileAccess` with status 403 (not 401), and the rejection message
carries both the token's id and the requested id. -/
theorem validateFileAccess_wrong_file_forbidden
    (hmac : String → JwtClaims → List Nat) (secret : String) (now : Nat)
    (c : JwtClaims) (requestedId : String)
    (hfresh : now < c.exp) (hdiff : c.payload.fileId ≠ requestedId) :
    validateFileAccess hmac secret now (some (.signed c (hmac secret c)))
        (some requestedId)
      = .reject 403 "Token file mismatch"
          ("Token is not valid for the requested file. Token: "
            ++ c.payload.fileId ++ ", Requested: " ++ requestedId) := by
  have hnle : ¬ c.exp ≤ now := Nat.not_le.mpr hfresh
  simp [validateFileAccess, validateToken, jwtVerify, hnle, showOpt, hdiff]

/-- Witness for C1 at a concrete token and request. -/
theorem validateFileAccess_wrong_file_forbidden_witness :
    validateFileAccess constSig "s" 0
        (some (.signed ⟨exPayload, 1⟩ (constSig "s" ⟨exPayload, 1⟩))) (some "b")
      = .reject 403 "Token file mismatch"
          ("Token is not valid for the requested file. Token: "
            ++ exPayload.fileId ++ ", Requested: " ++ "b") :=
  validateFileAccess_wrong_file_forbidden constSig "s" 0 ⟨exPayload, 1⟩ "b"
    (by decide) (by decide)

/-- C2: a correctly signed token past its expiry fails `validateToken`
with the "Token has expired" reason and the gateway middleware returns a
401 carrying that reason; an otherwise-identical token with a future
expiry verifies successfully. -/
theorem validateToken_expiry_behavior
    (hmac : String → JwtClaims → List Nat) (secret : String) (now : Nat)
    (c : JwtClaims) (paramsId : Option String) (hpast : c.exp ≤ now) :
    validateToken hmac secret now (.signed c (hmac secret c))
        = { valid := false, payload := none, error := some "Token has expired" }
    ∧ validateFileAccess hmac secret now (some (.signed c (hmac secret c))) paramsId
        = .reject 401 "Invalid or expired token" "Token has expired"
    ∧ ∀ futureExp : Nat, now < futureExp →
        validateToken hmac secret now
            (.signed ⟨c.payload, futureExp⟩ (hmac secret ⟨c.payload, futureExp⟩))
          = { valid := true, payload := some ⟨c.payload, futureExp⟩, error := none } := by
  refine ⟨?_, ?_, ?_⟩
  · simp [validateToken, jwtVerify, hpast, errorMessageFor]
  · simp [validateFileAccess, validateToken, jwtVerify, hpast, errorMessageFor, showOpt]
  · intro futureExp hfuture
    have hnle : ¬ futureExp ≤ now := Nat.not_le.mpr hfuture
    simp [validateToken, jwtVerify, hnle]

/-- Witness for C2 at a concrete expired token (and the same claims with a
future expiry). -/
theorem validateToken_expiry_behavior_witness :
    validateToken constSig "s" 5 (.signed ⟨exPayload, 5⟩ (constSig "s" ⟨exPayload, 5⟩))
        = { valid := false, payload := none, error := some "Token has expired" }
    ∧ validateFileAccess constSig "s" 5
          (some (.signed ⟨exPayload, 5⟩ (constSig "s" ⟨exPayload, 5⟩))) (some "a")
        = .reject 401 "Invalid or expired token" "Token has expired"
    ∧ validateToken constSig "s" 5 (.signed ⟨exPayload, 6⟩ (constSig "s" ⟨exPayload, 6⟩))
        = { valid := true, payload := some ⟨exPayload, 6⟩, error := none } :=
  ⟨(validateToken_expiry_behavior constSig "s" 5 ⟨exPayload, 5⟩ (some "a") (by decide)).1,
   (validateToken_expiry_behavior constSig "s" 5 ⟨exPayload, 5⟩ (some "a") (by decide)).2.1,
   (validateToken_expiry_behavior constSig "s" 5 ⟨exPayload, 5⟩ (some "a") (by decide)).2.2 6 (by decide)⟩

/-- C3: altering any single byte of a token's signature makes `jwt.verify`
fail with the invalid-signature error (never the expired error, and never
success), and `validateToken` reports the `JsonWebTokenError` message
"Invalid token format" rather than "Token has expired". -/
theorem validateToken_tampered_signature
    (hmac : String → JwtClaims → List Nat) (secret : String) (now : Nat)
    (c : JwtClaims) (i : Nat) (b : Nat)
    (hi : i < (hmac secret c).length)
    (hb : b ≠ (hmac secret c).get ⟨i, hi⟩) :
    jwtVerify hmac secret now (.signed c ((hmac secret c).set i b))
        = .error .signatureMismatch
    ∧ validateToken hmac secret now (.signed c ((hmac secret c).set i b))
        = { valid := false, payload := none, error := some "Invalid token format" } := by
  have hne : (hmac secret c).set i b ≠ hmac secret c := by
    intro heq
    apply hb
    have hgot : ((hmac secret c).set i b)[i]? = some b := by simp [hi]
    rw [heq] at hgot
    simp [List.get_eq_getElem, List.getElem?_eq_getElem hi] at hgot
    exact hgot.symm
  constructor
  · simp [jwtVerify, hne]
  · simp [validateToken, jwtVerify, hne, errorMessageFor]

/-- Witness for C3: flipping the one byte of a concrete signature. -/
theorem validateToken_tampered_signature_witness :
    jwtVerify constSig "s" 0
        (.signed ⟨exPayload, 1⟩ ((constSig "s" ⟨exPayload, 1⟩).set 0 1))
        = .error .signatureMismatch
    ∧ validateToken constSig "s" 0
        (.signed ⟨exPayload, 1⟩ ((constSig "s" ⟨exPayload, 1⟩).set 0 1))
        = { valid := false, payload := none, error := some "Invalid token format" } :=
  validateToken_tampered_signature constSig "s" 0 ⟨exPayload, 1⟩ 0 1
    (by decide) (by decide)

/-- C4 counterexample: with `JWT_SECRET` unset in the environment there is
no startup failure and no `ConfigError`: minting proceeds and returns a
signed token, and the secret silently falls back to the hardcoded default
string. -/
theorem generateSignedUrl_unconfigured_secret_proceeds :
    JWT_SECRET { jwtSecret := none, jwtExpiry := none } = defaultSecret
    ∧ generateSignedUrl constSig { jwtSecret := none, jwtExpiry := none } 0 "f" none
        = Token.signed ⟨⟨"f", none, ["read"], none⟩, 300⟩ [0] := by
  constructor
  · rfl
  · rfl

/-- C4 (amended): when the signing secret is not configured, the module
falls back to the hardcoded default secret and token minting proceeds
normally — `generateSignedUrl` behaves exactly as if the default secret
had been configured explicitly. -/
theorem JWT_SECRET_fallback_mint
    (hmac : String → JwtClaims → List Nat) (e : Env) (now : Nat)
    (fileId : String) (options : Option SignOptions)
    (hunset : e.jwtSecret = none) :
    JWT_SECRET e = defaultSecret
    ∧ generateSignedUrl hmac e now fileId options
        = generateSignedUrl hmac { e with jwtSecret := some defaultSecret }
            now fileId options := by
  constructor
  · simp [JWT_SECRET, hunset]
  · simp [generateSignedUrl, jwtSign, JWT_SECRET, JWT_EXPIRY, hunset]

/-- Witness for the amended C4 at a concrete unconfigured environment. -/
theorem JWT_SECRET_fallback_mint_witness :
    JWT_SECRET { jwtSecret := none, jwtExpiry := some 60 } = defaultSecret
    ∧ generateSignedUrl constSig { jwtSecret := none, jwtExpiry := some 60 } 7 "g" none
        = generateSignedUrl constSig
            { jwtSecret := some defaultSecret, jwtExpiry := some 60 } 7 "g" none :=
  JWT_SECRET_fallback_mint constSig { jwtSecret := none, jwtExpiry := some 60 }
    7 "g" none rfl

/-- C5: minting with no options yields exactly the `['read']` permissions
claim and an expiry of `now + 300` seconds (5 minutes) when no
environment override is set, while `storeBase64Image` mints its token
with an expiry of `now + 86400` seconds (24 hours) when the caller
supplies none. -/
theorem generateSignedUrl_defaults
    (hmac : String → JwtClaims → List Nat) (e : Env) (now : Nat) (fileId : String)
    (henv : e.jwtExpiry = none) :
    generateSignedUrl hmac e now fileId none
      = .signed ⟨⟨fileId, none, ["read"], none⟩, now + 300⟩
          (hmac (JWT_SECRET e) ⟨⟨fileId, none, ["read"], none⟩, now + 300⟩)
    ∧ ∀ (store : Store) (freshId : String) (data : List Nat) (mimeType : String),
        tokenExp (storeBase64Image hmac e now store freshId data mimeType none).2.token
          = some (now + 86400)
        ∧ tokenPayload
            (storeBase64Image hmac e now store freshId data mimeType none).2.token
          = some ⟨freshId, none, ["read"], none⟩ := by
  constructor
  · simp [generateSignedUrl, jwtSign, JWT_EXPIRY, henv]
  · intro store freshId data mimeType
    constructor
    · simp [storeBase64Image, generateSignedUrl, jwtSign, uploadFile, tokenExp]
    · simp [storeBase64Image, generateSignedUrl, jwtSign, uploadFile, tokenPayload]

/-- Witness for C5 at a concrete environment and upload. -/
theorem generateSignedUrl_defaults_witness :
    generateSignedUrl constSig { jwtSecret := some "s", jwtExpiry := none } 10 "f" none
      = .signed ⟨⟨"f", none, ["read"], none⟩, 310⟩
          (constSig (JWT_SECRET { jwtSecret := some "s", jwtExpiry := none })
            ⟨⟨"f", none, ["read"], none⟩, 310⟩)
    ∧ tokenExp (storeBase64Image constSig { jwtSecret := some "s", jwtExpiry := none }
          10 [] "x" [1, 2] "image/png" none).2.token = some 86410
    ∧ tokenPayload (storeBase64Image constSig { jwtSecret := some "s", jwtExpiry := none }
          10 [] "x" [1, 2] "image/png" none).2.token
        = some ⟨"x", none, ["read"], none⟩ :=
  ⟨(generateSignedUrl_defaults constSig ⟨some "s", none⟩ 10 "f" rfl).1,
   ((generateSignedUrl_defaults constSig ⟨some "s", none⟩ 10 "f" rfl).2 [] "x" [1, 2] "image/png").1,
   ((generateSignedUrl_defaults constSig ⟨some "s", none⟩ 10 "f" rfl).2 [] "x" [1, 2] "image/png").2⟩

/-- The allow/deny decision of the middleware, with the payload attached
on `next()` erased. -/
inductive Decision where
  | reject : Nat → String → String → Decision
  | allow : Decision
deriving DecidableEq, Repr

/-- Erase the attached payload from an access outcome, keeping the status
code and the JSON `error`/`message` fields. -/
def accessDecision : AccessOutcome → Decision
  | .reject s e m => .reject s e m
  | .allow _ => .allow

/-- C9: two well-signed tokens whose claims agree except on the
`permissions` array (which may even be empty) produce the same allow/deny
decision from `validateFileAccess` on every request: the permissions
claim is never consulted by the access check. -/
theorem validateFileAccess_permissions_irrelevant
    (hmac : String → JwtClaims → List Nat) (secret : String) (now : Nat)
    (p1 p2 : SignedUrlPayload) (e : Nat) (paramsId : Option String)
    (hfid : p1.fileId = p2.fileId) (_huid : p1.userId = p2.userId)
    (_hmeta : p1.metadata = p2.metadata) :
    accessDecision (validateFileAccess hmac secret now
        (some (.signed ⟨p1, e⟩ (hmac secret ⟨p1, e⟩))) paramsId)
      = accessDecision (validateFileAccess hmac secret now
        (some (.signed ⟨p2, e⟩ (hmac secret ⟨p2, e⟩))) paramsId) := by
  rcases le_or_lt e now with hpast | hfresh
  · simp [validateFileAccess, validateToken, jwtVerify, hpast, accessDecision]
  · have hnle : ¬ e ≤ now := Nat.not_le.mpr hfresh
    cases paramsId with
    | none => simp [validateFileAccess, validateToken, jwtVerify, hnle, accessDecision]
    | some rid =>
      by_cases hmatch : p1.fileId = rid
      · simp [validateFileAccess, validateToken, jwtVerify, hnle, accessDecision,
          hmatch, hfid ▸ hmatch]
      · have hmatch2 : ¬ p2.fileId = rid := fun h => hmatch (hfid ▸ h)
        simp [validateFileAccess, validateToken, jwtVerify, hnle, accessDecision,
          showOpt, hmatch, hmatch2, hfid]

/-- Witness for C9: a token with `['read', 'download']` and one with an
empty permissions array decide identically. -/
theorem validateFileAccess_permissions_irrelevant_witness :
    accessDecision (validateFileAccess constSig "s" 0
        (some (.signed ⟨⟨"a", none, ["read", "download"], none⟩, 1⟩
          (constSig "s" ⟨⟨"a", none, ["read", "download"], none⟩, 1⟩))) (some "a"))
      = accessDecision (validateFileAccess constSig "s" 0
        (some (.signed ⟨⟨"a", none, [], none⟩, 1⟩
          (constSig "s" ⟨⟨"a", none, [], none⟩, 1⟩))) (some "a")) :=
  validateFileAccess_permissions_irrelevant constSig "s" 0
    ⟨"a", none, ["read", "download"], none⟩ ⟨"a", none, [], none⟩ 1 (some "a")
    rfl rfl rfl

/-- After erasing an id from the bucket, lookups of that id find nothing. -/
theorem findFile_eraseFile (store : Store) (fileId : String) :
    findFile (eraseFile store fileId) fileId = none := by
  induction store with
  | nil => rfl
  | cons e rest ih =>
    by_cases h : e.1 = fileId <;> simp [eraseFile, h, findFile, ih]

/-- C6: once `deleteFile` has returned `true`, `getFileInfo` on that id
returns `null` (not an error) and a second `deleteFile` returns `false`
whether or not the second bucket call fails; deleting an id that is not
in the bucket returns `false` rather than raising. -/
theorem deleteFile_finality
    (infra infra2 : Bool) (store : Store) (fileId : String)
    (hdeleted : (deleteFile infra store fileId).1 = true) :
    getFileInfo (deleteFile infra store fileId).2 fileId = .ok none
    ∧ (deleteFile infra2 (deleteFile infra store fileId).2 fileId).1 = false
    ∧ ∀ s : Store, findFile s fileId = none → (deleteFile infra2 s fileId).1 = false := by
  have hvalid : isValidObjectId fileId = true := by
    by_contra h
    simp [deleteFile, Bool.not_eq_true] at hdeleted h
    simp [h] at hdeleted
  have hninfra : infra = false := by
    by_contra h
    simp [Bool.not_eq_false] at h
    simp [deleteFile, hvalid, h] at hdeleted
  have hsome : (findFile store fileId).isSome = true := by
    by_contra h
    simp [deleteFile, hvalid, hninfra, Bool.not_eq_true] at hdeleted h
    simp [h] at hdeleted
  have hstep : (deleteFile infra store fileId).2 = eraseFile store fileId := by
    simp [deleteFile, hvalid, hninfra, hsome]
  refine ⟨?_, ?_, ?_⟩
  · rw [hstep]
    simp [getFileInfo, hvalid, findFile_eraseFile]
  · rw [hstep]
    cases infra2 <;> simp [deleteFile, hvalid, findFile_eraseFile]
  · intro s hnone
    cases infra2 <;> simp [deleteFile, hvalid, hnone]

/-- Witness for C6: a concrete one-file bucket, deleted twice. -/
theorem deleteFile_finality_witness :
    getFileInfo (deleteFile false
        [("aaaaaaaaaaaaaaaaaaaaaaaa",
          ⟨"a.png", 3, some "image/png", none, 0⟩)] "aaaaaaaaaaaaaaaaaaaaaaaa").2
        "aaaaaaaaaaaaaaaaaaaaaaaa" = .ok none
    ∧ (deleteFile false (deleteFile false
        [("aaaaaaaaaaaaaaaaaaaaaaaa",
          ⟨"a.png", 3, some "image/png", none, 0⟩)] "aaaaaaaaaaaaaaaaaaaaaaaa").2
        "aaaaaaaaaaaaaaaaaaaaaaaa").1 = false
    ∧ (deleteFile false ([] : Store) "aaaaaaaaaaaaaaaaaaaaaaaa").1 = false :=
  ⟨(deleteFile_finality false false
      [("aaaaaaaaaaaaaaaaaaaaaaaa", ⟨"a.png", 3, some "image/png", none, 0⟩)]
      "aaaaaaaaaaaaaaaaaaaaaaaa" (by decide)).1,
   (deleteFile_finality false false
      [("aaaaaaaaaaaaaaaaaaaaaaaa", ⟨"a.png", 3, some "image/png", none, 0⟩)]
      "aaaaaaaaaaaaaaaaaaaaaaaa" (by decide)).2.1,
   (deleteFile_finality false false
      [("aaaaaaaaaaaaaaaaaaaaaaaa", ⟨"a.png", 3, some "image/png", none, 0⟩)]
      "aaaaaaaaaaaaaaaaaaaaaaaa" (by decide)).2.2 [] rfl⟩

/-- The route `app.get('/api/files/:id', validateFileAccess, handler)`:
run the middleware; a rejection becomes the response (status plus JSON
`error` field), otherwise the handler runs. -/
def tokenGatedRoute (handler : Store → String → StreamResponse)
    (hmac : String → JwtClaims → List Nat) (secret : String) (now : Nat)
    (store : Store) (fileId : String) (queryToken : Option Token) :
    StreamResponse :=
  match validateFileAccess hmac secret now queryToken (some fileId) with
  | .reject status errorField _ => .jsonError status errorField
  | .allow _ => handler store fileId

/-- The middleware admits a well-signed, unexpired token bound to the
requested id. -/
theorem validateFileAccess_matching_allows
    (hmac : String → JwtClaims → List Nat) (secret : String) (now : Nat)
    (c : JwtClaims) (hfresh : now < c.exp) :
    validateFileAccess hmac secret now (some (.signed c (hmac secret c)))
        (some c.payload.fileId) = .allow (some c) := by
  have hnle : ¬ c.exp ≤ now := Nat.not_le.mpr hfresh
  simp [validateFileAccess, validateToken, jwtVerify, hnle]

/-- Witness for the matching-token lemma at a concrete token. -/
theorem validateFileAccess_matching_allows_witness :
    validateFileAccess constSig "s" 0
        (some (.signed ⟨exPayload, 1⟩ (constSig "s" ⟨exPayload, 1⟩)))
        (some exPayload.fileId) = .allow (some ⟨exPayload, 1⟩) :=
  validateFileAccess_matching_allows constSig "s" 0 ⟨exPayload, 1⟩ (by decide)

/-- C7: a `GET /api/files/:id` carrying a well-signed, unexpired token
bound to the id streams the blob with `Content-Type` equal to its stored
content type, `Content-Length` equal to its size, inline
`Content-Disposition`, `Cache-Control: private, max-age=300` and an
`ETag` quoting the id; when the id resolves to no live blob the route
responds 404. -/
theorem streamFileRoute_headers
    (hmac : String → JwtClaims → List Nat) (secret : String) (now : Nat)
    (store : Store) (c : JwtClaims) (info : StoredFile) (ct : String)
    (hfresh : now < c.exp)
    (hfound : getFileInfo store c.payload.fileId = .ok (some info))
    (hct : info.contentType = some ct) :
    tokenGatedRoute streamFileHandler hmac secret now store c.payload.fileId
        (some (.signed c (hmac secret c)))
      = .streamed
          { contentType := ct
            contentLength := info.length
            contentDisposition := "inline; filename=\"" ++ info.filename ++ "\""
            cacheControl := "private, max-age=300"
            etag := "\"" ++ c.payload.fileId ++ "\"" }
    ∧ ∀ (c2 : JwtClaims), now < c2.exp →
        getFileInfo store c2.payload.fileId = .ok none →
        tokenGatedRoute streamFileHandler hmac secret now store c2.payload.fileId
            (some (.signed c2 (hmac secret c2)))
          = .jsonError 404 "File not found" := by
  constructor
  · rw [tokenGatedRoute, validateFileAccess_matching_allows hmac secret now c hfresh]
    simp [streamFileHandler, hfound, hct]
  · intro c2 hfresh2 hmissing
    rw [tokenGatedRoute, validateFileAccess_matching_allows hmac secret now c2 hfresh2]
    simp [streamFileHandler, hmissing]

/-- Witness for C7: a one-file bucket served through the route, and a 404
for a valid token naming an absent id. -/
theorem streamFileRoute_headers_witness :
    tokenGatedRoute streamFileHandler constSig "s" 0
        [("aaaaaaaaaaaaaaaaaaaaaaaa", ⟨"a.png", 3, some "image/png", none, 0⟩)]
        (JwtClaims.mk ⟨"aaaaaaaaaaaaaaaaaaaaaaaa", none, ["read"], none⟩ 1).payload.fileId
        (some (.signed ⟨⟨"aaaaaaaaaaaaaaaaaaaaaaaa", none, ["read"], none⟩, 1⟩
          (constSig "s" ⟨⟨"aaaaaaaaaaaaaaaaaaaaaaaa", none, ["read"], none⟩, 1⟩)))
      = .streamed
          { contentType := "image/png"
            contentLength := 3
            contentDisposition := "inline; filename=\"" ++ "a.png" ++ "\""
            cacheControl := "private, max-age=300"
            etag := "\"" ++ "aaaaaaaaaaaaaaaaaaaaaaaa" ++ "\"" }
    ∧ tokenGatedRoute streamFileHandler constSig "s" 0
        [("aaaaaaaaaaaaaaaaaaaaaaaa", ⟨"a.png", 3, some "image/png", none, 0⟩)]
        (JwtClaims.mk ⟨"bbbbbbbbbbbbbbbbbbbbbbbb", none, ["read"], none⟩ 1).payload.fileId
        (some (.signed ⟨⟨"bbbbbbbbbbbbbbbbbbbbbbbb", none, ["read"], none⟩, 1⟩
          (constSig "s" ⟨⟨"bbbbbbbbbbbbbbbbbbbbbbbb", none, ["read"], none⟩, 1⟩)))
      = .jsonError 404 "File not found" :=
  ⟨(streamFileRoute_headers constSig "s" 0
      [("aaaaaaaaaaaaaaaaaaaaaaaa", ⟨"a.png", 3, some "image/png", none, 0⟩)]
      ⟨⟨"aaaaaaaaaaaaaaaaaaaaaaaa", none, ["read"], none⟩, 1⟩
      ⟨"a.png", 3, some "image/png", none, 0⟩ "image/png"
      (by decide) rfl rfl).1,
   (streamFileRoute_headers constSig "s" 0
      [("aaaaaaaaaaaaaaaaaaaaaaaa", ⟨"a.png", 3, some "image/png", none, 0⟩)]
      ⟨⟨"aaaaaaaaaaaaaaaaaaaaaaaa", none, ["read"], none⟩, 1⟩
      ⟨"a.png", 3, some "image/png", none, 0⟩ "image/png"
      (by decide) rfl rfl).2
      ⟨⟨"bbbbbbbbbbbbbbbbbbbbbbbb", none, ["read"], none⟩, 1⟩ (by decide) rfl⟩

/-- C8 counterexample: for a stored PNG, the download endpoint's response
is *not* the streaming response with only the disposition changed — the
streaming handler serves `Content-Type: image/png` while the download
handler forces `application/octet-stream`. -/
theorem downloadFileHandler_not_only_disposition :
    streamFileHandler
        [("aaaaaaaaaaaaaaaaaaaaaaaa", ⟨"a.png", 3, some "image/png", none, 0⟩)]
        "aaaaaaaaaaaaaaaaaaaaaaaa"
      = .streamed
          { contentType := "image/png"
            contentLength := 3
            contentDisposition := "inline; filename=\"a.png\""
            cacheControl := "private, max-age=300"
            etag := "\"aaaaaaaaaaaaaaaaaaaaaaaa\"" }
    ∧ downloadFileHandler
        [("aaaaaaaaaaaaaaaaaaaaaaaa", ⟨"a.png", 3, some "image/png", none, 0⟩)]
        "aaaaaaaaaaaaaaaaaaaaaaaa"
      = .streamed
          { contentType := "application/octet-stream"
            contentLength := 3
            contentDisposition := "attachment; filename=\"a.png\""
            cacheControl := "private, max-age=300"
            etag := "\"aaaaaaaaaaaaaaaaaaaaaaaa\"" }
    ∧ downloadFileHandler
        [("aaaaaaaaaaaaaaaaaaaaaaaa", ⟨"a.png", 3, some "image/png", none, 0⟩)]
        "aaaaaaaaaaaaaaaaaaaaaaaa"
      ≠ .streamed
          { contentType := "image/png"
            contentLength := 3
            contentDisposition := "attachment; filename=\"a.png\""
            cacheControl := "private, max-age=300"
            etag := "\"aaaaaaaaaaaaaaaaaaaaaaaa\"" } :=
  ⟨rfl, rfl, by decide⟩

/-- C8 (amended): for every blob the download endpoint agrees with the
streaming endpoint on `Content-Length`, `Cache-Control` and `ETag` and
differs in exactly two headers: `Content-Disposition` becomes
`attachment` and `Content-Type` is forced to `application/octet-stream`
regardless of the stored content type; the 404 behaviour on an absent id
is identical. -/
theorem downloadFileHandler_attachment_octet_stream
    (store : Store) (fileId : String) (info : StoredFile)
    (hfound : getFileInfo store fileId = .ok (some info)) :
    downloadFileHandler store fileId
      = .streamed
          { contentType := "application/octet-stream"
            contentLength := info.length
            contentDisposition := "attachment; filename=\"" ++ info.filename ++ "\""
            cacheControl := "private, max-age=300"
            etag := "\"" ++ fileId ++ "\"" }
    ∧ streamFileHandler store fileId
      = .streamed
          { contentType := info.contentType.getD "application/octet-stream"
            contentLength := info.length
            contentDisposition := "inline; filename=\"" ++ info.filename ++ "\""
            cacheControl := "private, max-age=300"
            etag := "\"" ++ fileId ++ "\"" }
    ∧ ∀ fid2 : String, getFileInfo store fid2 = .ok none →
        downloadFileHandler store fid2 = .jsonError 404 "File not found"
        ∧ streamFileHandler store fid2 = .jsonError 404 "File not found" := by
  refine ⟨?_, ?_, ?_⟩
  · simp [downloadFileHandler, hfound]
  · simp [streamFileHandler, hfound]
  · intro fid2 hmissing
    exact ⟨by simp [downloadFileHandler, hmissing], by simp [streamFileHandler, hmissing]⟩

/-- Witness for the amended C8 at a concrete one-file bucket. -/
theorem downloadFileHandler_attachment_octet_stream_witness :
    downloadFileHandler
        [("aaaaaaaaaaaaaaaaaaaaaaaa", ⟨"a.png", 3, some "image/png", none, 0⟩)]
        "aaaaaaaaaaaaaaaaaaaaaaaa"
      = .streamed
          { contentType := "application/octet-stream"
            contentLength := 3
            contentDisposition := "attachment; filename=\"" ++ "a.png" ++ "\""
            cacheControl := "private, max-age=300"
            etag := "\"" ++ "aaaaaaaaaaaaaaaaaaaaaaaa" ++ "\"" }
    ∧ streamFileHandler
        [("aaaaaaaaaaaaaaaaaaaaaaaa", ⟨"a.png", 3, some "image/png", none, 0⟩)]
        "aaaaaaaaaaaaaaaaaaaaaaaa"
      = .streamed
          { contentType := (some "image/png").getD "application/octet-stream"
            contentLength := 3
            contentDisposition := "inline; filename=\"" ++ "a.png" ++ "\""
            cacheControl := "private, max-age=300"
            etag := "\"" ++ "aaaaaaaaaaaaaaaaaaaaaaaa" ++ "\"" }
    ∧ downloadFileHandler
        [("aaaaaaaaaaaaaaaaaaaaaaaa", ⟨"a.png", 3, some "image/png", none, 0⟩)]
        "bbbbbbbbbbbbbbbbbbbbbbbb" = .jsonError 404 "File not found" :=
  ⟨(downloadFileHandler_attachment_octet_stream
      [("aaaaaaaaaaaaaaaaaaaaaaaa", ⟨"a.png", 3, some "image/png", none, 0⟩)]
      "aaaaaaaaaaaaaaaaaaaaaaaa" ⟨"a.png", 3, some "image/png", none, 0⟩ rfl).1,
   (downloadFileHandler_attachment_octet_stream
      [("aaaaaaaaaaaaaaaaaaaaaaaa", ⟨"a.png", 3, some "image/png", none, 0⟩)]
      "aaaaaaaaaaaaaaaaaaaaaaaa" ⟨"a.png", 3, some "image/png", none, 0⟩ rfl).2.1,
   ((downloadFileHandler_attachment_octet_stream
      [("aaaaaaaaaaaaaaaaaaaaaaaa", ⟨"a.png", 3, some "image/png", none, 0⟩)]
      "aaaaaaaaaaaaaaaaaaaaaaaa" ⟨"a.png", 3, some "image/png", none, 0⟩ rfl).2.2
      "bbbbbbbbbbbbbbbbbbbbbbbb" rfl).1⟩

/-- C10 counterexample: when `await connectToDatabase()` throws (here
with the `database.ts` message for an unset `MONGODB_URI`), the delete
route's catch-all surfaces a distinct 500 store-error response — not the
404 the claim says is the only failure answer. -/
theorem deleteFileHandler_store_error_500 :
    (deleteFileHandler (some "MONGODB_URI environment variable is not set") false
        [("aaaaaaaaaaaaaaaaaaaaaaaa", ⟨"a.png", 3, some "image/png", none, 0⟩)]
        "aaaaaaaaaaaaaaaaaaaaaaaa").1
      = { status := 500, error := some "Failed to delete file"
          message := "MONGODB_URI environment variable is not set" }
    ∧ (deleteFileHandler (some "MONGODB_URI environment variable is not set") false
        [("aaaaaaaaaaaaaaaaaaaaaaaa", ⟨"a.png", 3, some "image/png", none, 0⟩)]
        "aaaaaaaaaaaaaaaaaaaaaaaa").1.status ≠ 404 :=
  ⟨rfl, by decide⟩

/-- C10 (amended): `deleteFile` swallows every failure of the deletion
attempt into `false` — an infrastructure error from the bucket call, a
malformed id (the `ObjectId` constructor throws inside the `try`), and
an absent id alike — and, once the database connection is established,
`deleteFileHandler` maps every `false` to the same 404 response, so the
route then answers only 200 or 404 and a deletion failure is
indistinguishable from a missing blob; the single distinct error status
is the catch-all 500 "Failed to delete file", reachable exactly when
`connectToDatabase` throws before any deletion is attempted. -/
theorem deleteFile_failures_collapse_to_404
    (infra : Bool) (store : Store) (fileId : String) :
    (deleteFile true store fileId).1 = false
    ∧ (isValidObjectId fileId = false → (deleteFile infra store fileId).1 = false)
    ∧ (findFile store fileId = none → (deleteFile infra store fileId).1 = false)
    ∧ ((deleteFile infra store fileId).1 = false →
        (deleteFileHandler none infra store fileId).1
          = { status := 404, error := some "File not found or deletion failed"
              message := "The requested file does not exist or could not be deleted" })
    ∧ ((deleteFileHandler none infra store fileId).1.status = 200
        ∨ (deleteFileHandler none infra store fileId).1.status = 404)
    ∧ ∀ errMsg : String,
        (deleteFileHandler (some errMsg) infra store fileId).1
          = { status := 500, error := some "Failed to delete file"
              message := errMsg } := by
  refine ⟨?_, ?_, ?_, ?_, ?_, ?_⟩
  · by_cases hv : isValidObjectId fileId <;> simp [deleteFile, hv]
  · intro hinvalid
    simp [deleteFile, hinvalid]
  · intro hnone
    cases infra <;> by_cases hv : isValidObjectId fileId <;>
      simp [deleteFile, hv, hnone]
  · intro hfail
    simp [deleteFileHandler, hfail]
  · by_cases hs : (deleteFile infra store fileId).1 <;>
      simp [deleteFileHandler, hs]
  · intro errMsg
    rfl

/-- Witness for the amended C10: infrastructure failure, malformed id
and absent id all collapse into the 404 response on a concrete bucket,
and a connection failure yields the 500 catch-all. -/
theorem deleteFile_failures_collapse_to_404_witness :
    (deleteFile true
        [("aaaaaaaaaaaaaaaaaaaaaaaa", ⟨"a.png", 3, some "image/png", none, 0⟩)]
        "aaaaaaaaaaaaaaaaaaaaaaaa").1 = false
    ∧ (deleteFile false
        [("aaaaaaaaaaaaaaaaaaaaaaaa", ⟨"a.png", 3, some "image/png", none, 0⟩)]
        "not-a-valid-object-id").1 = false
    ∧ (deleteFileHandler none false
        [("aaaaaaaaaaaaaaaaaaaaaaaa", ⟨"a.png", 3, some "image/png", none, 0⟩)]
        "not-a-valid-object-id").1
        = { status := 404, error := some "File not found or deletion failed"
            message := "The requested file does not exist or could not be deleted" }
    ∧ ((deleteFileHandler none true
        [("aaaaaaaaaaaaaaaaaaaaaaaa", ⟨"a.png", 3, some "image/png", none, 0⟩)]
        "aaaaaaaaaaaaaaaaaaaaaaaa").1.status = 200
       ∨ (deleteFileHandler none true
        [("aaaaaaaaaaaaaaaaaaaaaaaa", ⟨"a.png", 3, some "image/png", none, 0⟩)]
        "aaaaaaaaaaaaaaaaaaaaaaaa").1.status = 404)
    ∧ (deleteFileHandler (some "connect ECONNREFUSED") false
        [("aaaaaaaaaaaaaaaaaaaaaaaa", ⟨"a.png", 3, some "image/png", none, 0⟩)]
        "aaaaaaaaaaaaaaaaaaaaaaaa").1
        = { status := 500, error := some "Failed to delete file"
            message := "connect ECONNREFUSED" } :=
  ⟨(deleteFile_failures_collapse_to_404 true
      [("aaaaaaaaaaaaaaaaaaaaaaaa", ⟨"a.png", 3, some "image/png", none, 0⟩)]
      "aaaaaaaaaaaaaaaaaaaaaaaa").1,
   (deleteFile_failures_collapse_to_404 false
      [("aaaaaaaaaaaaaaaaaaaaaaaa", ⟨"a.png", 3, some "image/png", none, 0⟩)]
      "not-a-valid-object-id").2.1 (by decide),
   (deleteFile_failures_collapse_to_404 false
      [("aaaaaaaaaaaaaaaaaaaaaaaa", ⟨"a.png", 3, some "image/png", none, 0⟩)]
      "not-a-valid-object-id").2.2.2.1 (by decide),
   (deleteFile_failures_collapse_to_404 true
      [("aaaaaaaaaaaaaaaaaaaaaaaa", ⟨"a.png", 3, some "image/png", none, 0⟩)]
      "aaaaaaaaaaaaaaaaaaaaaaaa").2.2.2.2.1,
   (deleteFile_failures_collapse_to_404 false
      [("aaaaaaaaaaaaaaaaaaaaaaaa", ⟨"a.png", 3, some "image/png", none, 0⟩)]
      "aaaaaaaaaaaaaaaaaaaaaaaa").2.2.2.2.2 "connect ECONNREFUSED"⟩

end VPS
